import Mathlib

/-!
Verification of the siege-plugin-fps-camera core (src/graphics.rs): the
camera uniform derivation and the CameraGfx per-frame synchronization
protocol (update, gpu_update, record, rebuild), shallowly embedded over an
arbitrary field `α` standing for the source's f32 scalars.  The external
crate siege_math supplies 4x4 matrix and 4-vector arithmetic; its matrix
and vector products are embedded concretely (standard row-by-column
products, entry (i, j) = row i, column j, matching the row-major layout
the spec displays for `Mat4::new`), while its transcendental and inverse
operations are abstracted into an environment of functions (`MathOps`).
-/

/-- 4-component vector, embedding siege_math's `Vec4<f32>`. -/
structure Vec4 (α : Type) where
  x : α
  y : α
  z : α
  w : α
deriving DecidableEq

/-- Embedding of `Vec4::zero()`. -/
def Vec4.zero (α : Type) [Field α] : Vec4 α := ⟨0, 0, 0, 0⟩

/-- 4x4 matrix, embedding siege_math's `Mat4<f32>`; field `mij` is the
entry at row `i`, column `j` of the matrix as displayed by `Mat4::new`
(arguments read row by row). -/
structure Mat4 (α : Type) where
  m00 : α
  m01 : α
  m02 : α
  m03 : α
  m10 : α
  m11 : α
  m12 : α
  m13 : α
  m20 : α
  m21 : α
  m22 : α
  m23 : α
  m30 : α
  m31 : α
  m32 : α
  m33 : α
deriving DecidableEq

/-- Embedding of `Mat4::identity()`. -/
def Mat4.identity (α : Type) [Field α] : Mat4 α :=
  ⟨1, 0, 0, 0,
   0, 1, 0, 0,
   0, 0, 1, 0,
   0, 0, 0, 1⟩

/-- Matrix-matrix product, embedding siege_math's `&Mat4 * &Mat4`
(standard row-by-column product). -/
def mat4Mul {α : Type} [Field α] (a b : Mat4 α) : Mat4 α :=
  ⟨a.m00 * b.m00 + a.m01 * b.m10 + a.m02 * b.m20 + a.m03 * b.m30,
   a.m00 * b.m01 + a.m01 * b.m11 + a.m02 * b.m21 + a.m03 * b.m31,
   a.m00 * b.m02 + a.m01 * b.m12 + a.m02 * b.m22 + a.m03 * b.m32,
   a.m00 * b.m03 + a.m01 * b.m13 + a.m02 * b.m23 + a.m03 * b.m33,
   a.m10 * b.m00 + a.m11 * b.m10 + a.m12 * b.m20 + a.m13 * b.m30,
   a.m10 * b.m01 + a.m11 * b.m11 + a.m12 * b.m21 + a.m13 * b.m31,
   a.m10 * b.m02 + a.m11 * b.m12 + a.m12 * b.m22 + a.m13 * b.m32,
   a.m10 * b.m03 + a.m11 * b.m13 + a.m12 * b.m23 + a.m13 * b.m33,
   a.m20 * b.m00 + a.m21 * b.m10 + a.m22 * b.m20 + a.m23 * b.m30,
   a.m20 * b.m01 + a.m21 * b.m11 + a.m22 * b.m21 + a.m23 * b.m31,
   a.m20 * b.m02 + a.m21 * b.m12 + a.m22 * b.m22 + a.m23 * b.m32,
   a.m20 * b.m03 + a.m21 * b.m13 + a.m22 * b.m23 + a.m23 * b.m33,
   a.m30 * b.m00 + a.m31 * b.m10 + a.m32 * b.m20 + a.m33 * b.m30,
   a.m30 * b.m01 + a.m31 * b.m11 + a.m32 * b.m21 + a.m33 * b.m31,
   a.m30 * b.m02 + a.m31 * b.m12 + a.m32 * b.m22 + a.m33 * b.m32,
   a.m30 * b.m03 + a.m31 * b.m13 + a.m32 * b.m23 + a.m33 * b.m33⟩

/-- Matrix-vector product, embedding siege_math's `&Mat4 * &Vec4`. -/
def mat4MulVec {α : Type} [Field α] (a : Mat4 α) (v : Vec4 α) : Vec4 α :=
  ⟨a.m00 * v.x + a.m01 * v.y + a.m02 * v.z + a.m03 * v.w,
   a.m10 * v.x + a.m11 * v.y + a.m12 * v.z + a.m13 * v.w,
   a.m20 * v.x + a.m21 * v.y + a.m22 * v.z + a.m23 * v.w,
   a.m30 * v.x + a.m31 * v.y + a.m32 * v.z + a.m33 * v.w⟩

/-- Embedding of dacite's `Extent2D` (u32 width/height). -/
structure Extent2D where
  width : Nat
  height : Nat
deriving DecidableEq

/-- Environment of scalar/matrix operations supplied by external crates:
`tan` is f32's tangent (used by `perspective_matrix_fov_vulkan`),
`asRadians` is the angle-unit conversion `camera.fovx.as_radians()`, and
`inverse` is siege_math's fallible `Mat4::inverse()` (`none` models a
singular matrix, where the source's `.unwrap()` would panic). -/
structure MathOps (α : Type) where
  tan : α → α
  asRadians : α → α
  inverse : Mat4 α → Option (Mat4 α)

/-- Modelled from the spec: src/camera.rs (module `camera`, re-exported as
`Camera` by lib.rs) is not under src/.  The spec fixes the near plane
constant `::camera::NEAR_PLANE` at 0.1. -/
def NEAR_PLANE (α : Type) [Field α] : α := 1 / 10

/-- Modelled from the spec: src/camera.rs is not under src/.  The spec
fixes the far plane constant `::camera::FAR_PLANE` at 1000. -/
def FAR_PLANE (α : Type) [Field α] : α := 1000

/-- Modelled from the spec: src/camera.rs is not under src/.  CameraState
(`Camera`) holds a world-to-view matrix, a horizontal field of view stored
as an angle (read via `fovx.as_radians()`, embedded through
`MathOps.asRadians`), and the viewport extent. -/
structure Camera (α : Type) where
  fovx : α
  view_matrix : Mat4 α
  extent : Extent2D
deriving DecidableEq

/-- Embedding of `perspective_matrix_fov_vulkan` (graphics.rs lines
72-89): `d = 1.0 / tan(fovx_radians / 2.0)`, with the tangent function
passed explicitly. -/
def perspective_matrix_fov_vulkan {α : Type} [Field α] (tan : α → α)
    (fovx_radians aspect_ratio near far : α) : Mat4 α :=
  let d : α := 1 / tan (fovx_radians / 2)
  let n := near
  let f := far
  ⟨d,   0,                0,              0,
   0,   d * aspect_ratio, 0,              0,
   0,   0,                (-f) / (n - f), n * f / (n - f),
   0,   0,                1,              0⟩

/-- Embedding of `CameraUniforms` (graphics.rs lines 18-29). -/
structure CameraUniforms (α : Type) where
  projection_x_view_matrix : Mat4 α
  view_matrix : Mat4 α
  projection_matrix : Mat4 α
  camera_position_wspace : Vec4 α
  ambient : α
  white_level : α
  extent : Extent2D
  fovx : α
deriving DecidableEq

/-- Embedding of `CameraUniforms::update` (graphics.rs lines 49-67): reads
fovx (as radians), view_matrix and extent from the camera, stores the
given position, recomputes the aspect ratio and the projection matrix
unconditionally, then the product matrix.  `ambient` and `white_level` are
left untouched. -/
def CameraUniforms.update {α : Type} [Field α] (env : MathOps α)
    (u : CameraUniforms α) (camera : Camera α) (position_wspace : Vec4 α) :
    CameraUniforms α :=
  let fovx := env.asRadians camera.fovx
  let ar : α := (camera.extent.width : α) / (camera.extent.height : α)
  let proj := perspective_matrix_fov_vulkan env.tan fovx ar
    (NEAR_PLANE α) (FAR_PLANE α)
  { u with
    camera_position_wspace := position_wspace,
    fovx := fovx,
    view_matrix := camera.view_matrix,
    extent := camera.extent,
    projection_matrix := proj,
    projection_x_view_matrix := mat4Mul proj camera.view_matrix }

/-- Embedding of `CameraUniforms::new` (graphics.rs lines 32-47): default
fields (identity matrices, zero position, ambient 1.0, white_level 0.08,
placeholder extent 1280x1024, fovx 0.0) immediately refreshed by
`update(camera, Vec4::zero())`. -/
def CameraUniforms.new {α : Type} [Field α] (env : MathOps α)
    (camera : Camera α) : CameraUniforms α :=
  let uniforms : CameraUniforms α :=
    { projection_x_view_matrix := Mat4.identity α,
      view_matrix := Mat4.identity α,
      projection_matrix := Mat4.identity α,
      camera_position_wspace := Vec4.zero α,
      ambient := 1,
      white_level := 8 / 100,
      extent := ⟨1280, 1024⟩,
      fovx := 0 }
  uniforms.update env camera (Vec4.zero α)

/-- Embedding of `RenderParams` (graphics.rs lines 12-16). -/
structure RenderParams (α : Type) where
  bloom_strength : α
  bloom_cliff : α
  blur_level : α
deriving DecidableEq

/-- The fields of siege_render's shared per-frame parameter block
(`Params`) that `CameraGfx::update` writes: the two directional-light
directions, the inverse projection matrix, and the three tuning scalars.
`inv_projection` is an `Option` because the source unwraps a fallible
matrix inverse. -/
structure ParamsBlock (α : Type) where
  dlight_0 : Vec4 α
  dlight_1 : Vec4 α
  inv_projection : Option (Mat4 α)
  bloom_strength : α
  bloom_cliff : α
  blur_level : α

/-- Embedding of `CameraGfx` (graphics.rs lines 107-117).  The GPU-mapped
`uniforms_buffer` holds exactly one `CameraUniforms`, modelled by its
contents; `camera` models the contents of the shared
`Arc<RwLock<Camera>>`; the descriptor-set plumbing carries no state
relevant to the claims and is omitted. -/
structure CameraGfx (α : Type) where
  uniforms_buffer : CameraUniforms α
  camera_uniforms : CameraUniforms α
  camera : Camera α
  camera_position_wspace : Vec4 α
  light_dir_1 : Vec4 α
  light_dir_2 : Vec4 α
  render_params : RenderParams α
deriving DecidableEq

/-- Embedding of `CameraGfx::inv_projection` (graphics.rs lines 209-212):
reads the uniforms resident in the GPU-mapped buffer (`as_ptr`), not the
CPU-side `camera_uniforms`, and inverts that projection matrix. -/
def CameraGfx.inv_projection {α : Type} [Field α] (env : MathOps α)
    (g : CameraGfx α) : Option (Mat4 α) :=
  env.inverse g.uniforms_buffer.projection_matrix

/-- The `CameraGfx` value built by the success path of `CameraGfx::new`
(graphics.rs lines 182-206): both the buffer and the CPU cache hold the
freshly derived uniforms, the cached position is (0, 0, 0, 1), the two
fixed light directions and default tuning parameters are as written in the
source. -/
def mkCameraGfx {α : Type} [Field α] (env : MathOps α) (camera : Camera α) :
    CameraGfx α :=
  let cu := CameraUniforms.new env camera
  { uniforms_buffer := cu,
    camera_uniforms := cu,
    camera := camera,
    camera_position_wspace := ⟨0, 0, 0, 1⟩,
    light_dir_1 :=
      ⟨(5773502691896258 : α) / 10 ^ 16,
       -(5773502691896258 : α) / 10 ^ 16,
       (5773502691896258 : α) / 10 ^ 16, 0⟩,
    light_dir_2 :=
      ⟨-(8017837257372732 : α) / 10 ^ 16,
       -(2672612419124244 : α) / 10 ^ 16,
       -(5345224838248488 : α) / 10 ^ 16, 0⟩,
    render_params :=
      { bloom_strength := 6 / 10,
        bloom_cliff := 35 / 100,
        blur_level := 0 } }

/-- Outcomes of the three fallible external renderer calls made by
`CameraGfx::new`: `create_host_visible_buffer`, the initial `write_one`,
and `create_descriptor_set` (each `?`-propagated in the source). -/
structure RendererEnv (ε : Type) where
  create_host_visible_buffer : Except ε Unit
  write_one : Except ε Unit
  create_descriptor_set : Except ε Unit

/-- Embedding of `CameraGfx::new` (graphics.rs lines 120-207): derives the
initial uniforms, then performs the three fallible renderer calls in
source order, propagating the first failure; on success returns the fully
initialized `CameraGfx`. -/
def CameraGfx.new {α ε : Type} [Field α] (env : MathOps α)
    (r : RendererEnv ε) (camera : Camera α) : Except ε (CameraGfx α) :=
  match r.create_host_visible_buffer with
  | .error e => .error e
  | .ok _ =>
    match r.write_one with
    | .error e => .error e
    | .ok _ =>
      match r.create_descriptor_set with
      | .error e => .error e
      | .ok _ => .ok (mkCameraGfx env camera)

/-- Result of one `CameraGfx::update` call: the new plugin state, the
mutated parameter block, and the returned rebuild-needed flag
(`Ok(false)`). -/
structure UpdateOut (α : Type) where
  gfx : CameraGfx α
  params : ParamsBlock α
  needs_rebuild : Bool

/-- Embedding of `CameraGfx::update` (graphics.rs lines 225-242): refresh
the CPU-side uniforms from the shared camera with the cached position,
then write into the parameter block the two light directions transformed
by the fresh view matrix, the inverse projection read via
`inv_projection` (GPU buffer, untouched by this call), and the three
tuning parameters; return `false`. -/
def CameraGfx.update {α : Type} [Field α] (env : MathOps α)
    (g : CameraGfx α) (params : ParamsBlock α) : UpdateOut α :=
  let cu := g.camera_uniforms.update env g.camera g.camera_position_wspace
  let g2 : CameraGfx α := { g with camera_uniforms := cu }
  { gfx := g2,
    params :=
      { params with
        dlight_0 := mat4MulVec cu.view_matrix g.light_dir_1,
        dlight_1 := mat4MulVec cu.view_matrix g.light_dir_2,
        inv_projection := g2.inv_projection env,
        bloom_strength := g.render_params.bloom_strength,
        bloom_cliff := g.render_params.bloom_cliff,
        blur_level := g.render_params.blur_level },
    needs_rebuild := false }

/-- Embedding of `CameraGfx::gpu_update` (graphics.rs lines 244-248):
flush the CPU-side `camera_uniforms` into the GPU-mapped buffer
(`write_one`, single-instance overwrite). -/
def CameraGfx.gpu_update {α : Type} (g : CameraGfx α) : CameraGfx α :=
  { g with uniforms_buffer := g.camera_uniforms }

/-- Embedding of `CameraGfx::record_geometry` (graphics.rs lines 216-217):
a no-op taking `&self`. -/
def CameraGfx.record_geometry {α : Type} (g : CameraGfx α) : CameraGfx α := g

/-- Embedding of `CameraGfx::record_transparent` (graphics.rs lines
219-220): a no-op taking `&self`. -/
def CameraGfx.record_transparent {α : Type} (g : CameraGfx α) : CameraGfx α := g

/-- Embedding of `CameraGfx::record_ui` (graphics.rs lines 222-223): a
no-op taking `&self`. -/
def CameraGfx.record_ui {α : Type} (g : CameraGfx α) : CameraGfx α := g

/-- Embedding of `CameraGfx::rebuild` (graphics.rs lines 250-265): store
the new extent into the shared camera, then update the GPU-resident
uniforms in place (via `as_ptr`) from the updated camera and the cached
position; the CPU-side `camera_uniforms` is not touched. -/
def CameraGfx.rebuild {α : Type} [Field α] (env : MathOps α)
    (g : CameraGfx α) (extent : Extent2D) : CameraGfx α :=
  let camera2 : Camera α := { g.camera with extent := extent }
  { g with
    camera := camera2,
    uniforms_buffer :=
      g.uniforms_buffer.update env camera2 g.camera_position_wspace }

/-- Concrete operation environment over the rationals, for evaluating the
embedding on closed inputs. -/
def envQ : MathOps ℚ :=
  { tan := fun x => x, asRadians := fun x => x, inverse := fun m => some m }

/-- Concrete camera state: fovx 1, identity view matrix, 100x50 viewport. -/
def camQ : Camera ℚ :=
  { fovx := 1, view_matrix := Mat4.identity ℚ, extent := ⟨100, 50⟩ }

/-- A renderer whose three external calls all succeed. -/
def rendererOkQ : RendererEnv Nat :=
  { create_host_visible_buffer := .ok (),
    write_one := .ok (),
    create_descriptor_set := .ok () }

/-- A renderer that rejects the buffer allocation with error code 7. -/
def rendererBadQ : RendererEnv Nat :=
  { create_host_visible_buffer := .error 7,
    write_one := .ok (),
    create_descriptor_set := .ok () }

/-- The CameraGfx state right after a successful construction from `camQ`. -/
def gQ : CameraGfx ℚ := mkCameraGfx envQ camQ

/-- C1: for every fovx in (0, pi) and aspect_ratio > 0, the matrix
produced by `perspective_matrix_fov_vulkan` with the fixed near/far
constants has entry (0,0) = 1/tan(fovx/2), entry (1,1) =
1/tan(fovx/2) * aspect_ratio, entry (2,2) = -far/(near-far), entry (2,3)
= near*far/(near-far), entry (3,2) = 1, and every other entry 0. -/
theorem perspective_matrix_entries (fovx aspect_ratio : ℝ) (M : Mat4 ℝ)
    (h1 : 0 < fovx) (h2 : fovx < Real.pi) (h3 : 0 < aspect_ratio)
    (hM : M = perspective_matrix_fov_vulkan Real.tan fovx aspect_ratio
      (NEAR_PLANE ℝ) (FAR_PLANE ℝ)) :
    M.m00 = 1 / Real.tan (fovx / 2) ∧
    M.m11 = 1 / Real.tan (fovx / 2) * aspect_ratio ∧
    M.m22 = -FAR_PLANE ℝ / (NEAR_PLANE ℝ - FAR_PLANE ℝ) ∧
    M.m23 = NEAR_PLANE ℝ * FAR_PLANE ℝ / (NEAR_PLANE ℝ - FAR_PLANE ℝ) ∧
    M.m32 = 1 ∧
    M.m01 = 0 ∧ M.m02 = 0 ∧ M.m03 = 0 ∧
    M.m10 = 0 ∧ M.m12 = 0 ∧ M.m13 = 0 ∧
    M.m20 = 0 ∧ M.m21 = 0 ∧
    M.m30 = 0 ∧ M.m31 = 0 ∧ M.m33 = 0 := by
  subst hM
  exact ⟨rfl, rfl, rfl, rfl, rfl, rfl, rfl, rfl, rfl, rfl, rfl, rfl, rfl,
    rfl, rfl, rfl⟩

/-- C1 witness: the entry formulas hold at fovx = pi/2, aspect_ratio = 1,
which satisfy the hypotheses. -/
theorem perspective_matrix_entries_witness :
    0 < Real.pi / 2 ∧ Real.pi / 2 < Real.pi ∧ (0 : ℝ) < 1 ∧
    (perspective_matrix_fov_vulkan Real.tan (Real.pi / 2) 1
      (NEAR_PLANE ℝ) (FAR_PLANE ℝ)).m00 = 1 / Real.tan (Real.pi / 2 / 2) := by
  have hpi := Real.pi_pos
  have h1 : 0 < Real.pi / 2 := by linarith
  have h2 : Real.pi / 2 < Real.pi := by linarith
  exact ⟨h1, h2, one_pos,
    (perspective_matrix_entries (Real.pi / 2) 1 _ h1 h2 one_pos rfl).1⟩

/-- C2: the inverse-projection value that frame N's `update` writes into
the parameter block equals the inverse of the projection matrix committed
to the GPU buffer by frame N-1's `gpu_update` (first conjunct, for an
arbitrary frame N-1 starting state), and in general `update` writes the
inverse of whatever projection matrix is resident in the GPU buffer — not
the freshly recomputed CPU-side one (second conjunct). -/
theorem inv_projection_one_frame_lag {α : Type} [Field α] (env : MathOps α)
    (g0 : CameraGfx α) (p0 p1 : ParamsBlock α) :
    ((((g0.update env p0).gfx.gpu_update).update env p1).params.inv_projection
        = env.inverse ((g0.update env p0).gfx.camera_uniforms.projection_matrix))
    ∧ (∀ (g : CameraGfx α) (p : ParamsBlock α),
        (g.update env p).params.inv_projection
          = env.inverse g.uniforms_buffer.projection_matrix) :=
  ⟨rfl, fun _ _ => rfl⟩

/-- C3 counterexample: `rebuild` with a changed extent mutates the
GPU-visible uniforms buffer, so `gpu_update` is not the only mutator. -/
theorem rebuild_mutates_buffer_counterexample :
    (gQ.rebuild envQ ⟨200, 50⟩).uniforms_buffer ≠ gQ.uniforms_buffer := by
  intro h
  exact absurd (congrArg (fun u => u.extent.width) h) (by decide)

/-- C3 amended: `update` and the three record operations leave the
GPU-visible uniforms buffer unchanged, while `gpu_update` overwrites it
with the CPU-side uniforms and `rebuild` also mutates it, rewriting it in
place from the extent-updated camera and the cached position. -/
theorem buffer_mutation_by_lifecycle {α : Type} [Field α] (env : MathOps α)
    (g : CameraGfx α) (p : ParamsBlock α) (e : Extent2D) :
    ((g.update env p).gfx.uniforms_buffer = g.uniforms_buffer)
    ∧ (g.record_geometry.uniforms_buffer = g.uniforms_buffer)
    ∧ (g.record_transparent.uniforms_buffer = g.uniforms_buffer)
    ∧ (g.record_ui.uniforms_buffer = g.uniforms_buffer)
    ∧ (g.gpu_update.uniforms_buffer = g.camera_uniforms)
    ∧ ((g.rebuild env e).uniforms_buffer
        = g.uniforms_buffer.update env { g.camera with extent := e }
            g.camera_position_wspace) :=
  ⟨rfl, rfl, rfl, rfl, rfl, rfl⟩

/-- C4 counterexample: immediately after construction, `camera_uniforms`
is not recovered by reapplying the update derivation to the current camera
with the cached position — construction stored the zero position while the
cached position is (0, 0, 0, 1). -/
theorem rederive_camera_uniforms_counterexample :
    gQ.camera_uniforms
      ≠ gQ.camera_uniforms.update envQ gQ.camera gQ.camera_position_wspace := by
  intro h
  exact absurd (congrArg (fun u => u.camera_position_wspace.w) h) (by decide)

/-- C4 amended: immediately after every `update` lifecycle call,
`camera_uniforms` equals the result of reapplying the update derivation to
the current shared camera state with the cached camera position (the
invariant does not hold at construction, after `rebuild`, or after an
external write to the shared camera state before the next `update`). -/
theorem rederive_camera_uniforms_after_update {α : Type} [Field α]
    (env : MathOps α) (g : CameraGfx α) (p : ParamsBlock α) :
    (g.update env p).gfx.camera_uniforms
      = CameraUniforms.update env (g.update env p).gfx.camera_uniforms
          (g.update env p).gfx.camera
          (g.update env p).gfx.camera_position_wspace :=
  rfl

/-- C5: after `rebuild(new_extent)`, the shared camera state's extent and
the extent field of the GPU-resident uniforms both equal `new_extent`,
with no intervening `update` or `gpu_update` call. -/
theorem rebuild_extent_immediate {α : Type} [Field α] (env : MathOps α)
    (g : CameraGfx α) (e : Extent2D) :
    (g.rebuild env e).camera.extent = e
    ∧ (g.rebuild env e).uniforms_buffer.extent = e :=
  ⟨rfl, rfl⟩

/-- C6: immediately after any `CameraUniforms.update` call — including the
one performed by construction and the one `rebuild` applies to the
GPU-resident instance — `projection_x_view_matrix` equals the product of
the `projection_matrix` and `view_matrix` stored in the same instance. -/
theorem projection_x_view_is_product {α : Type} [Field α] (env : MathOps α)
    (u : CameraUniforms α) (camera : Camera α) (pos : Vec4 α)
    (g : CameraGfx α) (e : Extent2D) :
    ((u.update env camera pos).projection_x_view_matrix
      = mat4Mul (u.update env camera pos).projection_matrix
          (u.update env camera pos).view_matrix)
    ∧ ((CameraUniforms.new env camera).projection_x_view_matrix
      = mat4Mul (CameraUniforms.new env camera).projection_matrix
          (CameraUniforms.new env camera).view_matrix)
    ∧ ((g.rebuild env e).uniforms_buffer.projection_x_view_matrix
      = mat4Mul (g.rebuild env e).uniforms_buffer.projection_matrix
          (g.rebuild env e).uniforms_buffer.view_matrix) :=
  ⟨rfl, rfl, rfl⟩

/-- C7: every `CameraGfx::update` call writes into the parameter block the
two fixed light directions each multiplied by the freshly recomputed view
matrix (the current camera's view matrix), the inverse projection read
from the GPU buffer, and the three tuning parameters verbatim, and it
returns the rebuild-needed flag `false`. -/
theorem update_writes_params {α : Type} [Field α] (env : MathOps α)
    (g : CameraGfx α) (p : ParamsBlock α) :
    ((g.update env p).params.dlight_0
        = mat4MulVec g.camera.view_matrix g.light_dir_1)
    ∧ ((g.update env p).params.dlight_1
        = mat4MulVec g.camera.view_matrix g.light_dir_2)
    ∧ ((g.update env p).params.inv_projection
        = env.inverse g.uniforms_buffer.projection_matrix)
    ∧ ((g.update env p).params.bloom_strength = g.render_params.bloom_strength)
    ∧ ((g.update env p).params.bloom_cliff = g.render_params.bloom_cliff)
    ∧ ((g.update env p).params.blur_level = g.render_params.blur_level)
    ∧ ((g.update env p).needs_rebuild = false) :=
  ⟨rfl, rfl, rfl, rfl, rfl, rfl, rfl⟩

/-- C8: if any of the three external renderer calls made during
construction fails (buffer allocation, the initial buffer write, or
descriptor-set creation, in source order), `CameraGfx::new` returns that
failure and produces no `CameraGfx` instance. -/
theorem new_propagates_failure {α ε : Type} [Field α] (env : MathOps α)
    (r : RendererEnv ε) (camera : Camera α) (e : ε) :
    (r.create_host_visible_buffer = .error e
      → CameraGfx.new env r camera = .error e)
    ∧ (r.create_host_visible_buffer = .ok () → r.write_one = .error e
      → CameraGfx.new env r camera = .error e)
    ∧ (r.create_host_visible_buffer = .ok () → r.write_one = .ok ()
      → r.create_descriptor_set = .error e
      → CameraGfx.new env r camera = .error e) := by
  refine ⟨fun h1 => ?_, fun h1 h2 => ?_, fun h1 h2 h3 => ?_⟩
  · simp [CameraGfx.new, h1]
  · simp [CameraGfx.new, h1, h2]
  · simp [CameraGfx.new, h1, h2, h3]

/-- C8 witness: a renderer rejecting the buffer allocation with error
code 7 makes construction return exactly that error. -/
theorem new_propagates_failure_witness :
    rendererBadQ.create_host_visible_buffer = Except.error 7
    ∧ CameraGfx.new envQ rendererBadQ camQ = Except.error 7 :=
  ⟨rfl, (new_propagates_failure envQ rendererBadQ camQ 7).1 rfl⟩

/-- C9 counterexample: the `CameraUniforms` produced by construction
carries the zero position vector, whose w component is 0, not 1. -/
theorem construction_position_w_counterexample :
    ¬ (CameraUniforms.new envQ camQ).camera_position_wspace.w = 1 := by
  decide

/-- C9 amended: `camera_position_wspace` is always exactly the position
argument supplied by the caller of `update`, never a value read from
CameraState; the instance produced by construction carries `Vec4::zero`
(w = 0), while the w = 1 position is the one `CameraGfx` caches and
supplies on its per-frame path. -/
theorem position_is_caller_supplied {α : Type} [Field α] (env : MathOps α)
    (u : CameraUniforms α) (camera : Camera α) (pos : Vec4 α) :
    ((u.update env camera pos).camera_position_wspace = pos)
    ∧ ((CameraUniforms.new env camera).camera_position_wspace = Vec4.zero α)
    ∧ ((mkCameraGfx env camera).camera_position_wspace = ⟨0, 0, 0, 1⟩) :=
  ⟨rfl, rfl, rfl⟩

/-- C10: a successfully constructed `CameraGfx` caches the position
(0, 0, 0, 1) while its construction-time uniforms carry the zero vector;
no lifecycle operation modifies the cached position (the record operations
are full identities), and both the per-frame and the rebuild recomputation
of the uniforms store the cached position. -/
theorem cached_position_constant {α ε : Type} [Field α] (env : MathOps α)
    (r : RendererEnv ε) (camera : Camera α) (g : CameraGfx α)
    (h : CameraGfx.new env r camera = .ok g) :
    g.camera_position_wspace = ⟨0, 0, 0, 1⟩
    ∧ g.camera_uniforms.camera_position_wspace = Vec4.zero α
    ∧ (∀ (g2 : CameraGfx α) (p : ParamsBlock α),
        (g2.update env p).gfx.camera_position_wspace = g2.camera_position_wspace
        ∧ (g2.update env p).gfx.camera_uniforms.camera_position_wspace
            = g2.camera_position_wspace)
    ∧ (∀ g2 : CameraGfx α,
        g2.gpu_update.camera_position_wspace = g2.camera_position_wspace)
    ∧ (∀ g2 : CameraGfx α,
        g2.record_geometry = g2 ∧ g2.record_transparent = g2
        ∧ g2.record_ui = g2)
    ∧ (∀ (g2 : CameraGfx α) (e : Extent2D),
        (g2.rebuild env e).camera_position_wspace = g2.camera_position_wspace
        ∧ (g2.rebuild env e).uniforms_buffer.camera_position_wspace
            = g2.camera_position_wspace) := by
  obtain ⟨cb, wo, cd⟩ := r
  cases cb <;> cases wo <;> cases cd <;> simp [CameraGfx.new] at h
  subst h
  exact ⟨rfl, rfl, fun g2 p => ⟨rfl, rfl⟩, fun g2 => rfl,
    fun g2 => ⟨rfl, rfl, rfl⟩, fun g2 e => ⟨rfl, rfl⟩⟩

/-- C10 witness: the concrete successful construction caches the position
(0, 0, 0, 1). -/
theorem cached_position_constant_witness :
    CameraGfx.new envQ rendererOkQ camQ = Except.ok gQ
    ∧ gQ.camera_position_wspace = ⟨0, 0, 0, 1⟩ :=
  ⟨rfl, (cached_position_constant envQ rendererOkQ camQ gQ rfl).1⟩
